import Mathlib

/-!
Shallow embedding of `_stbt/power.py` (stb-tester power-outlet control):
the URI resolver `uri_to_power_outlet`, the config resolver
`config_to_power_outlet`, and the backend adapters (`_NoOutlet`,
`_FileOutlet`, `_ShellOutlet`, `_Aviosys8800Pro` with its scripted fake
serial device, `_RittalSnmpPower`, `_ATEN_PE6108G`, `Kasa`) together with
the shared `_SnmpInteger` accessor.

External collaborators (the SNMP wire protocol, the serial transport, the
operating system's file system and subprocesses) are modelled as explicit
oracles passed to the functions; everything the Python module computes
itself (pattern matching, field extraction, OID arithmetic, poll loops,
protocol line parsing) is translated directly from the source.
-/

/-- Python exceptions that `_stbt/power.py` can raise, tagged with their
payload.  `keyError` carries the missing key (Python stores it in
`e.args[0]`), `nameError` carries the undefined variable name, and
`assertionError` models the fake serial device's `assert`. -/
inductive PyError where
  | configurationError (msg : String)
  | valueError (msg : String)
  | keyError (key : String)
  | nameError (name : String)
  | runtimeError (msg : String)
  | ioError (msg : String)
  | assertionError (msg : String)
deriving DecidableEq, Repr

/-- Whitespace as stripped by Python `int(str)` (ASCII subset). -/
def pyIsSpace (c : Char) : Bool :=
  c = ' ' || c = '\t' || c = '\n' || c = '\x0d' || c = '\x0b' || c = '\x0c'

/-- Strip leading and trailing whitespace, as Python `int()` does. -/
def pyStripWS (l : List Char) : List Char :=
  ((l.dropWhile pyIsSpace).reverse.dropWhile pyIsSpace).reverse

def isDigitCh (c : Char) : Bool :=
  '0' ≤ c && c ≤ '9'

def digitVal (c : Char) : Nat := c.toNat - 48

/-- Digits possibly separated by single underscores (Python 3 allows
`int("1_0")`), after the first digit has been consumed. -/
def parseDigitsCore (acc : Nat) : List Char → Option Nat
  | [] => some acc
  | c :: cs =>
    if isDigitCh c then parseDigitsCore (acc * 10 + digitVal c) cs
    else if c = '_' then
      match cs with
      | [] => none
      | d :: cs2 =>
        if isDigitCh d then parseDigitsCore (acc * 10 + digitVal d) cs2
        else none
    else none

/-- A nonempty digit run (with Python 3 underscore grouping). -/
def parseDigits : List Char → Option Nat
  | [] => none
  | c :: cs => if isDigitCh c then parseDigitsCore (digitVal c) cs else none

/-- Python `repr` of a simple string (no quotes or escapes inside): the
string wrapped in single quotes (written via hex escapes). -/
def pyRepr (s : String) : String := "\x27" ++ s ++ "\x27"

/-- The `ValueError` message of a failed Python `int(s)`. -/
def intCastErr (s : String) : String :=
  "invalid literal for int() with base 10: " ++ pyRepr s

/-- Python `int(s)` on a string: strips whitespace, allows one optional
sign, then a nonempty digit run (with underscore grouping); `none` means
`ValueError`. -/
def pyInt (s : String) : Option Int :=
  match pyStripWS s.data with
  | '+' :: rest => (parseDigits rest).map Int.ofNat
  | '-' :: rest => (parseDigits rest).map (fun n => -(Int.ofNat n))
  | cs => (parseDigits cs).map Int.ofNat

/-- Connection parameters held by a constructed `_SnmpInteger` (the
`UdpTransportTarget` address/port pair, the OID and the community
string). -/
structure SnmpIntegerState where
  address : String
  port : Int
  oid : String
  community : String
deriving DecidableEq, Repr

/-- `_SnmpInteger.__init__`.  The source intends to support
`host:port` addresses but runs `address.split(address, 2)` — splitting
the string by itself — which always yields `["", ""]`, after which
`int("")` raises `ValueError`.  Without a colon the port defaults to
`"161"`. -/
def snmpIntegerInit (address oid community : String) :
    Except PyError SnmpIntegerState :=
  if ':' ∈ address.data then
    .error (.valueError (intCastErr ""))
  else
    .ok { address := address, port := 161, oid := oid, community := community }

/-- The constructed backend objects (`PDU` subclasses), reduced to the
data each constructor stores.  `shellOutlet` keeps the three URI pieces
the command line is composed from; `aviosys` keeps the serial device
path handed to `serial.Serial` (the open transport is an external
collaborator). -/
inductive PDU where
  | noOutlet
  | fileOutlet (filename : String)
  | shellOutlet (model hostname outlet : String)
  | aviosys (filename : String)
  | rittal (snmp : SnmpIntegerState)
  | aten (snmp : SnmpIntegerState)
  | kasa (hostname : String)
deriving DecidableEq, Repr

/-- `_ATEN_PE6108G.__init__`: `int(outlet)`, then the vendor OID
`1.3.6.1.4.1.21317.1.3.2.2.2.2.<outlet+offset>.0` with offset `1` for
outlets ≤ 8 and `2` above, community fixed to `administrator`. -/
def atenNew (address outlet : String) : Except PyError PDU :=
  match pyInt outlet with
  | none => .error (.valueError (intCastErr outlet))
  | some n =>
    let off : Int := if n ≤ 8 then 1 else 2
    (snmpIntegerInit address
      ("1.3.6.1.4.1.21317.1.3.2.2.2.2." ++ toString (n + off) ++ ".0")
      "administrator").map .aten

/-- `_RittalSnmpPower.__init__`: `int(outlet_no)`, index = outlet_no - 1
must be ≥ 0, OID `1.3.6.1.4.1.2606.7.4.2.2.1.11.1.<52 + index*7>`. -/
def rittalNew (address outlet_no community : String) : Except PyError PDU :=
  match pyInt outlet_no with
  | none => .error (.valueError (intCastErr outlet_no))
  | some n =>
    if n - 1 < 0 then
      .error (.valueError
        ("Invalid outlet_no " ++ toString n ++ ".  Min outlet no is 1"))
    else
      (snmpIntegerInit address
        ("1.3.6.1.4.1.2606.7.4.2.2.1.11.1." ++ toString (52 + (n - 1) * 7))
        community).map .rittal

/-- `_new_aviosys_8800_pro`: default device path `/dev/ttyACM0`. -/
def aviosysNew (filename : Option String) : PDU :=
  .aviosys (filename.getD "/dev/ttyACM0")

/-- Case-insensitive match of an ASCII pattern literal (Python
`re.IGNORECASE`); returns the remaining input on success. -/
def matchCI : List Char → List Char → Option (List Char)
  | [], cs => some cs
  | _, [] => none
  | p :: ps, c :: cs => if c.toLower = p.toLower then matchCI ps cs else none

/-- Greedy `[^: ]+`: a nonempty maximal run of characters that are
neither `:` nor space, with the rest of the input. -/
def fieldNoColonSpace (cs : List Char) : Option (List Char × List Char) :=
  match cs.span (fun c => !(c = ':') && !(c = ' ')) with
  | (run, rest) => if run = [] then none else some (run, rest)

/-- Greedy `[^:]+`: a nonempty maximal run of non-colon characters. -/
def fieldNoColon (cs : List Char) : Option (List Char × List Char) :=
  match cs.span (fun c => !(c = ':')) with
  | (run, rest) => if run = [] then none else some (run, rest)

/-- Consume a literal `:`. -/
def expectColon : List Char → Option (List Char)
  | ':' :: rest => some rest
  | _ => none

/-- `re.match` of `file:(?P<filename>[^:]+)` (prefix match). -/
def matchFile (cs : List Char) : Option (List Char) :=
  (matchCI "file:".data cs).bind (fun r => (fieldNoColon r).map (·.1))

/-- `re.match` of `aten:(?P<address>[^: ]+):(?P<outlet>[^: ]+)`. -/
def matchAten (cs : List Char) : Option (List Char × List Char) :=
  (matchCI "aten:".data cs).bind fun r =>
  (fieldNoColonSpace r).bind fun ar =>
  (expectColon ar.2).bind fun r2 =>
  (fieldNoColonSpace r2).map fun orr => (ar.1, orr.1)

/-- `re.match` of
`rittal:(?P<address>[^: ]+):(?P<outlet_no>[^: ]+):(?P<community>[^: ]+)`. -/
def matchRittal (cs : List Char) : Option (List Char × List Char × List Char) :=
  (matchCI "rittal:".data cs).bind fun r =>
  (fieldNoColonSpace r).bind fun ar =>
  (expectColon ar.2).bind fun r2 =>
  (fieldNoColonSpace r2).bind fun nr =>
  (expectColon nr.2).bind fun r3 =>
  (fieldNoColonSpace r3).map fun cr => (ar.1, nr.1, cr.1)

/-- The alternation `(?P<model>pdu|ipp|testfallback)`; the captured model
keeps the original (possibly mixed-case) characters of the input, as a
regex group capture does. -/
def matchShellModel (cs : List Char) : Option (List Char × List Char) :=
  match matchCI "pdu".data cs with
  | some r => some (cs.take 3, r)
  | none =>
    match matchCI "ipp".data cs with
    | some r => some (cs.take 3, r)
    | none =>
      match matchCI "testfallback".data cs with
      | some r => some (cs.take 12, r)
      | none => none

/-- `re.match` of
`(?P<model>pdu|ipp|testfallback):(?P<hostname>[^: ]+):(?P<outlet>[^: ]+)`. -/
def matchShell (cs : List Char) :
    Option (List Char × List Char × List Char) :=
  (matchShellModel cs).bind fun mr =>
  (expectColon mr.2).bind fun r1 =>
  (fieldNoColonSpace r1).bind fun hr =>
  (expectColon hr.2).bind fun r2 =>
  (fieldNoColonSpace r2).map fun orr => (mr.1, hr.1, orr.1)

/-- `re.match` of `aviosys-8800-pro(:(?P<filename>[^:]+))?`: `some none`
means matched without the optional filename group. -/
def matchAviosys (cs : List Char) : Option (Option (List Char)) :=
  (matchCI "aviosys-8800-pro".data cs).map fun r =>
    match r with
    | ':' :: r2 =>
      match fieldNoColon r2 with
      | some fr => some fr.1
      | none => none
    | _ => none

/-- `re.match` of `kasa:(?P<hostname>[^:]+)`. -/
def matchKasa (cs : List Char) : Option (List Char) :=
  (matchCI "kasa:".data cs).bind (fun r => (fieldNoColon r).map (·.1))

/-- `uri_to_power_outlet`: try the seven patterns in order with Python
`re.match` (anchored at the start only) under `IGNORECASE`, calling the
first matching entry's factory on the captured groups; no match raises
`ConfigurationError`. -/
def uriToPowerOutlet (uri : String) : Except PyError PDU :=
  let cs := uri.data
  match matchCI "none".data cs with
  | some _ => .ok .noOutlet
  | none =>
  match matchFile cs with
  | some fn => .ok (.fileOutlet (String.mk fn))
  | none =>
  match matchAten cs with
  | some ao => atenNew (String.mk ao.1) (String.mk ao.2)
  | none =>
  match matchRittal cs with
  | some aoc => rittalNew (String.mk aoc.1) (String.mk aoc.2.1)
      (String.mk aoc.2.2)
  | none =>
  match matchShell cs with
  | some mho => .ok (.shellOutlet (String.mk mho.1) (String.mk mho.2.1)
      (String.mk mho.2.2))
  | none =>
  match matchAviosys cs with
  | some fn? => .ok (aviosysNew (fn?.map String.mk))
  | none =>
  match matchKasa cs with
  | some h => .ok (.kasa (String.mk h))
  | none =>
    .error (.configurationError ("Invalid power outlet URI: \"" ++ uri ++ "\""))

/-- Whether any of the seven URI patterns matches (used to state the
resolver's dispatch contract). -/
def uriMatchesAny (uri : String) : Bool :=
  let cs := uri.data
  (matchCI "none".data cs).isSome || (matchFile cs).isSome ||
  (matchAten cs).isSome || (matchRittal cs).isSome ||
  (matchShell cs).isSome || (matchAviosys cs).isSome ||
  (matchKasa cs).isSome

/-- Python `str.lower()` (ASCII case folding, defined over the character
list so that it evaluates by kernel reduction). -/
def pyLower (s : String) : String := String.mk (s.data.map Char.toLower)

/-- A parsed configuration: section name → (key → string value), as an
association list (first binding wins, like a dict with unique keys). -/
def Config : Type := List (String × List (String × String))

/-- Dictionary lookup. -/
def alookup (k : String) : List (String × α) → Option α
  | [] => none
  | (k2, v) :: rest => if k2 = k then some v else alookup k rest

/-- `config["device_under_test"]["power_outlet"]`; `none` is the
`KeyError` caught by `config_to_power_outlet` (either level missing). -/
def configPduName (config : Config) : Option String :=
  (alookup "device_under_test" config).bind (alookup "power_outlet")

/-- The dispatch on `section["type"].lower()` inside
`config_to_power_outlet`.  The `aten` and `rittal-snmp` branches read
`pdu["address"]` etc., but no variable `pdu` is in scope, so they raise
`NameError` (which the surrounding `except KeyError` does not catch).
Missing keys raise `KeyError`, converted to `ConfigurationError` naming
the key and the section; an unknown type raises `ConfigurationError`
directly. -/
def configSectionToPdu (pduname : String)
    (sect : List (String × String)) : Except PyError PDU :=
  let keyErr (k : String) : Except PyError PDU :=
    .error (.configurationError
      ("Failed to find key \"" ++ k ++ "\" in section [power_outlet " ++
       pduname ++ "] in config file"))
  match alookup "type" sect with
  | none => keyErr "type"
  | some tyRaw =>
    let ty := pyLower tyRaw
    if ty = "none" then .ok .noOutlet
    else if ty = "file" then
      match alookup "filename" sect with
      | none => keyErr "filename"
      | some fn => .ok (.fileOutlet fn)
    else if ty = "aten" then .error (.nameError "pdu")
    else if ty = "rittal-snmp" then .error (.nameError "pdu")
    else if ty = "aviosys-8800-pro" then
      .ok (aviosysNew (alookup "filename" sect))
    else if ty = "kasa" then
      match alookup "address" sect with
      | none => keyErr "address"
      | some a => .ok (.kasa a)
    else
      .error (.configurationError
        (pduname ++ ": Unknown power outlet type: \"" ++ ty ++ "\""))

/-- `config_to_power_outlet`: missing key → `_NoOutlet()`; else try the
URI resolver, swallowing only `ConfigurationError`; else look up the
section `power_outlet <pduname>` — note the error message for a missing
section names `"pdu.<pduname>"` although the looked-up section is
`power_outlet <pduname>`; else dispatch on the section's `type`. -/
def configToPowerOutlet (config : Config) : Except PyError PDU :=
  match configPduName config with
  | none => .ok .noOutlet
  | some pduname =>
    match uriToPowerOutlet pduname with
    | .ok pdu => .ok pdu
    | .error (.configurationError _) =>
      match alookup ("power_outlet " ++ pduname) config with
      | none =>
        .error (.configurationError
          ("Expected to find section \"pdu." ++ pduname ++
           "\" in config file because device_under_test.power_outlet == " ++
           pyRepr pduname ++ ".  No such section found"))
      | some sect => configSectionToPdu pduname sect
    | .error e => .error e

/-- What `open(filename)` finds: file contents, `ENOENT`, or some other
I/O failure (modelling the file system as an external collaborator). -/
inductive FileResult where
  | content (bytes : List UInt8)
  | enoent
  | ioError (msg : String)
deriving DecidableEq, Repr

/-- The file system as seen by `_FileOutlet`. -/
def FS : Type := String → FileResult

/-- `_FileOutlet.set`: overwrite the file with the single byte
`b'0'`/`b'1'`. -/
def fileOutletSet (fs : FS) (filename : String) (power : Bool) : FS :=
  fun p => if p = filename then .content [if power then 49 else 48] else fs p

/-- `bool(int(f.read(1)))` on the first byte of the file: a digit maps to
its value's truthiness; an empty file makes `int(b"")` raise
`ValueError`; a non-digit byte also raises `ValueError`. -/
def fileByteToBool : List UInt8 → Except PyError Bool
  | [] => .error (.valueError "invalid literal for int() with base 10: b\x27\x27")
  | b :: _ =>
    if 48 ≤ b.toNat ∧ b.toNat ≤ 57 then .ok (decide (b.toNat ≠ 48))
    else .error (.valueError "invalid literal for int() with base 10")

/-- `_FileOutlet.get`: `ENOENT` → `True`; other I/O errors propagate;
otherwise read one byte and convert. -/
def fileOutletGet (fs : FS) (filename : String) : Except PyError Bool :=
  match fs filename with
  | .enoent => .ok true
  | .ioError m => .error (.ioError m)
  | .content bytes => fileByteToBool bytes

/-- A line-oriented serial device with state `σ`: `write` sends
characters, `readline` returns the next line (terminator included) or
`none` when no full line is available (the fake device's `assert` would
fire; a real serial port would block). -/
structure SerialIface (σ : Type) where
  write : σ → List Char → σ
  readline : σ → Option (List Char × σ)

/-- `_Aviosys8800Pro.set`: write `p1=<0 or 1>` and discard one echoed
line. -/
def aviosysSet (dev : SerialIface σ) (s : σ) (power : Bool) :
    Except PyError σ :=
  let s1 := dev.write s (if power then "p1=1\n".data else "p1=0\n".data)
  match dev.readline s1 with
  | none => .error (.assertionError "FakeUsbPower8000 would have blocked")
  | some lr => .ok lr.2

/-- Python `str.strip()` over a character list. -/
def pyStrip (l : List Char) : List Char :=
  ((l.dropWhile pyIsSpace).reverse.dropWhile pyIsSpace).reverse

/-- `_Aviosys8800Pro.get`: write `readio`, discard the first echoed line,
decide on the second: `IO:5` + CRLF → on, `IO:0` + CRLF → off, anything
else → `RuntimeError` quoting the stripped response. -/
def aviosysGet (dev : SerialIface σ) (s : σ) : Except PyError (Bool × σ) :=
  let s1 := dev.write s "readio\n".data
  match dev.readline s1 with
  | none => .error (.assertionError "FakeUsbPower8000 would have blocked")
  | some lr =>
  match dev.readline lr.2 with
  | none => .error (.assertionError "FakeUsbPower8000 would have blocked")
  | some rr =>
    if rr.1 = "IO:5\x0d\n".data then .ok (true, rr.2)
    else if rr.1 = "IO:0\x0d\n".data then .ok (false, rr.2)
    else
      .error (.runtimeError
        ("Unexpected response from Aviosys 8800 Pro: \"" ++
         String.mk (pyStrip rr.1) ++ "\""))

/-- State of `_FakeAviosys8800ProSerial` (the unused `remainder`
attribute of the source is omitted). -/
structure FakeSerial where
  is_on : Bool
  outbuf : List Char
  inbuf : List Char
deriving DecidableEq, Repr

/-- Split a buffer at its first newline: the line without the newline and
the rest after it. -/
def splitFirstNL : List Char → Option (List Char × List Char)
  | [] => none
  | c :: cs =>
    if c = '\n' then some ([], cs)
    else (splitFirstNL cs).map (fun p => (c :: p.1, p.2))

/-- One iteration's `is_on` update: lines of length ≥ 4 starting `p1=`
set the relay from the fourth character (`0`/`1`; anything else leaves it
unchanged). -/
def fakeLineIsOn (ison : Bool) (line : List Char) : Bool :=
  if 4 ≤ line.length ∧ line.take 3 = "p1=".data then
    match line.get? 3 with
    | some c => if c = '0' then false else if c = '1' then true else ison
    | none => ison
  else ison

/-- One iteration's response: echo the line with CRLF, append the
`IO:<5/0>` answer when the line starts with `readio`, then the `z>`
prompt. -/
def fakeLineOut (ison2 : Bool) (line : List Char) : List Char :=
  (line ++ "\x0d\n".data) ++
  (if "readio".data.isPrefixOf line then
    (if ison2 then "IO:5\x0d\n".data else "IO:0\x0d\n".data)
   else []) ++
  "z>".data

/-- The `while '\n' in self.inbuf` loop of
`_FakeAviosys8800ProSerial.write`, fuelled: each iteration consumes at
least one character of `inbuf`, so fuel `inbuf.length` is enough for the
loop to run to completion. -/
def fakeProcess : Nat → Bool → List Char → List Char →
    Bool × List Char × List Char
  | 0, ison, outbuf, inbuf => (ison, outbuf, inbuf)
  | fuel + 1, ison, outbuf, inbuf =>
    match splitFirstNL inbuf with
    | none => (ison, outbuf, inbuf)
    | some lr =>
      let ison2 := fakeLineIsOn ison lr.1
      fakeProcess fuel ison2 (outbuf ++ fakeLineOut ison2 lr.1) lr.2

/-- `_FakeAviosys8800ProSerial.write`: append to `inbuf`, then process
every complete line (the Python method also returns `len(data)`, which no
caller uses). -/
def fakeWrite (f : FakeSerial) (data : List Char) : FakeSerial :=
  let inb := f.inbuf ++ data
  let r := fakeProcess inb.length f.is_on f.outbuf inb
  { is_on := r.1, outbuf := r.2.1, inbuf := r.2.2 }

/-- `_FakeAviosys8800ProSerial.readline`: the prefix of `outbuf` up to
and including the first newline; `none` models the failing `assert` when
no newline is buffered. -/
def fakeReadline (f : FakeSerial) : Option (List Char × FakeSerial) :=
  (splitFirstNL f.outbuf).map fun lr =>
    (lr.1 ++ ['\n'], { f with outbuf := lr.2 })

/-- The fake serial device packaged as a `SerialIface`. -/
def fakeIface : SerialIface FakeSerial :=
  { write := fakeWrite, readline := fakeReadline }

/-- `_FakeAviosys8800ProSerial()` initial state. -/
def fakeInit : FakeSerial := { is_on := false, outbuf := [], inbuf := [] }

/-- The SNMP agent behind `_SnmpInteger`, as an oracle: `setEcho v` is the
integer the agent's SET response reports back when `v` is written, and
`gets i` is the integer returned by the *(i+1)*-th subsequent GET. -/
structure SnmpAgent where
  setEcho : Int → Int
  gets : Nat → Int

/-- The confirmation poll of `_ATEN_PE6108G.set`: starting at GET index
`i` with `fuel` polls left, return `some k` when the `k`-th GET (1-based)
first equals `newState`, else `none`. -/
def atenPollFrom (newState : Int) (g : Nat → Int) (i : Nat) :
    Nat → Option Nat
  | 0 => none
  | fuel + 1 =>
    if g i = newState then some (i + 1)
    else atenPollFrom newState g (i + 1) fuel

/-- Outcome of `_ATEN_PE6108G.set`: the integer sent via SNMP SET and
either the number of one-second-spaced GET polls performed before the
state matched, or the timeout `RuntimeError` message. -/
structure AtenSetTrace where
  sent : Int
  result : Except String Nat
deriving Repr

/-- `_ATEN_PE6108G.set`: SET `2` for on / `1` for off; `new_state` is the
agent's SET echo; then up to 12 GETs, one per second, returning as soon
as a GET equals `new_state`, else a timeout error naming the
direction. -/
def atenSet (power : Bool) (agent : SnmpAgent) : AtenSetTrace :=
  let sent : Int := if power then 2 else 1
  let newState := agent.setEcho sent
  match atenPollFrom newState agent.gets 0 12 with
  | some k => { sent := sent, result := .ok k }
  | none =>
    { sent := sent,
      result := .error ("Timeout waiting for outlet to power " ++
        (if power then "ON" else "OFF")) }

/-- `_ATEN_PE6108G.get` applied to the raw integer the SNMP accessor
returned: the dict `{3: False, 2: True, 1: False}`; any other key raises
`KeyError`. -/
def atenGetState (raw : Int) : Except PyError Bool :=
  if raw = 3 then .ok false
  else if raw = 2 then .ok true
  else if raw = 1 then .ok false
  else .error (.keyError (toString raw))

/-- Substring test (used to state facts about error-message contents). -/
def containsSub (needle : List Char) : List Char → Bool
  | [] => needle.isEmpty
  | c :: hs => needle.isPrefixOf (c :: hs) || containsSub needle hs

/-- A file system where no path exists. -/
def fsEnoent : FS := fun _ => .enoent

/-- A file system where every open fails with a non-ENOENT I/O error. -/
def fsBroken : FS := fun _ => .ioError "disk"

/-- A well-behaved SNMP agent whose SET echoes the written value and
whose GETs always report `2` (outlet on). -/
def agentOn : SnmpAgent := { setEcho := fun v => v, gets := fun _ => 2 }

/-- The fake serial device after `write("readio\n")` and one
`readline()`. -/
def fakeMid : FakeSerial :=
  { is_on := false, outbuf := "IO:0\x0d\nz>".data, inbuf := [] }

/-- The fake serial device after `write("readio\n")` and two
`readline()`s. -/
def fakePost : FakeSerial :=
  { is_on := false, outbuf := "z>".data, inbuf := [] }

/-- C9: `_ATEN_PE6108G.get` maps raw value 1/2/3 only; any other raw SNMP
integer raises `KeyError` instead of returning a boolean. -/
theorem aten_get_unknown_raw_keyerror (raw : Int)
    (h1 : raw ≠ 1) (h2 : raw ≠ 2) (h3 : raw ≠ 3) :
    atenGetState raw = .error (.keyError (toString raw)) := by
  unfold atenGetState
  rw [if_neg h3, if_neg h2, if_neg h1]

theorem aten_get_unknown_raw_keyerror_witness :
    (5 : Int) ≠ 1 ∧ (5 : Int) ≠ 2 ∧ (5 : Int) ≠ 3 ∧
    atenGetState 5 = .error (.keyError "5") :=
  ⟨by decide, by decide, by decide,
   aten_get_unknown_raw_keyerror 5 (by decide) (by decide) (by decide)⟩

/-- C10: for every address containing a colon, `_SnmpInteger.__init__`
raises `ValueError`: `address.split(address, 2)` yields `["", ""]` and
`int("")` fails, so no SNMP outlet can carry an explicit port. -/
theorem snmp_integer_colon_address_valueerror
    (address oid community : String) (h : ':' ∈ address.data) :
    snmpIntegerInit address oid community =
      .error (.valueError (intCastErr "")) := by
  unfold snmpIntegerInit
  rw [if_pos h]

theorem snmp_integer_colon_address_valueerror_witness :
    ':' ∈ "192.168.1.5:162".data ∧
    snmpIntegerInit "192.168.1.5:162" "1.3.6.1.4.1.21317.1.3.2.2.2.2.9.0"
      "administrator" =
      .error (.valueError "invalid literal for int() with base 10: \x27\x27") :=
  ⟨by decide,
   snmp_integer_colon_address_valueerror "192.168.1.5:162"
     "1.3.6.1.4.1.21317.1.3.2.2.2.2.9.0" "administrator" (by decide)⟩

/-- C7: `_FileOutlet` round-trips `set`/`get` through the single stored
byte; a missing file reads as on; any other I/O failure on `get`
propagates. -/
theorem file_outlet_roundtrip (fs : FS) (path : String) (b : Bool) :
    fileOutletGet (fileOutletSet fs path b) path = .ok b
  ∧ (fs path = .enoent → fileOutletGet fs path = .ok true)
  ∧ (∀ m, fs path = .ioError m → fileOutletGet fs path = .error (.ioError m)) := by
  refine ⟨?_, ?_, ?_⟩
  · simp only [fileOutletGet, fileOutletSet, if_pos rfl]
    cases b <;> rfl
  · intro h
    unfold fileOutletGet
    rw [h]
  · intro m h
    unfold fileOutletGet
    rw [h]

theorem file_outlet_roundtrip_witness :
    fileOutletGet (fileOutletSet fsEnoent "/tmp/power" true) "/tmp/power" =
      .ok true
  ∧ fileOutletGet (fileOutletSet fsEnoent "/tmp/power" false) "/tmp/power" =
      .ok false
  ∧ fileOutletGet fsEnoent "/tmp/power" = .ok true
  ∧ fileOutletGet fsBroken "/tmp/power" = .error (.ioError "disk") :=
  ⟨(file_outlet_roundtrip fsEnoent "/tmp/power" true).1,
   (file_outlet_roundtrip fsEnoent "/tmp/power" false).1,
   (file_outlet_roundtrip fsEnoent "/tmp/power" true).2.1 rfl,
   (file_outlet_roundtrip fsBroken "/tmp/power" true).2.2 "disk" rfl⟩

/-- C1: the `aten` and `rittal-snmp` branches of `config_to_power_outlet`
read the undefined variable `pdu` instead of `section`, so a fully
populated section of either type raises `NameError` rather than
constructing the backend. -/
theorem config_aten_rittal_nameerror :
    configToPowerOutlet
      [("device_under_test", [("power_outlet", "outA")]),
       ("power_outlet outA",
        [("type", "aten"), ("address", "mypdu"), ("outlet", "1")])] =
      .error (.nameError "pdu")
  ∧ configToPowerOutlet
      [("device_under_test", [("power_outlet", "outR")]),
       ("power_outlet outR",
        [("type", "rittal-snmp"), ("address", "mypdu"), ("outlet", "1"),
         ("community", "public")])] =
      .error (.nameError "pdu") :=
  ⟨rfl, rfl⟩

/-- C5: when the named section is missing, the `ConfigurationError`
message contains the identifier but names the section `pdu.<identifier>`,
not the `power_outlet <identifier>` section that was actually looked
up. -/
theorem config_missing_section_message :
    configToPowerOutlet [("device_under_test", [("power_outlet", "myoutlet")])] =
      .error (.configurationError
        ("Expected to find section \"pdu.myoutlet\" in config file because " ++
         "device_under_test.power_outlet == \x27myoutlet\x27." ++
         "  No such section found"))
  ∧ containsSub "myoutlet".data
      ("Expected to find section \"pdu.myoutlet\" in config file because " ++
       "device_under_test.power_outlet == \x27myoutlet\x27." ++
       "  No such section found").data = true
  ∧ containsSub "power_outlet myoutlet".data
      ("Expected to find section \"pdu.myoutlet\" in config file because " ++
       "device_under_test.power_outlet == \x27myoutlet\x27." ++
       "  No such section found").data = false :=
  ⟨rfl, by decide, by decide⟩

/-- C6: a missing `device_under_test.power_outlet` key yields
`_NoOutlet`, and a value the URI resolver accepts is returned directly,
for every configuration — in particular independently of any sections, so
no section lookup takes place. -/
theorem config_default_and_uri_first :
    (∀ config : Config, configPduName config = none →
      configToPowerOutlet config = .ok .noOutlet)
  ∧ (∀ (config : Config) (pduname : String) (pdu : PDU),
      configPduName config = some pduname →
      uriToPowerOutlet pduname = .ok pdu →
      configToPowerOutlet config = .ok pdu) := by
  constructor
  · intro config h
    unfold configToPowerOutlet
    rw [h]
  · intro config pduname pdu h1 h2
    unfold configToPowerOutlet
    simp only [h1, h2]

theorem config_default_and_uri_first_witness :
    configToPowerOutlet [] = .ok .noOutlet
  ∧ configToPowerOutlet
      [("device_under_test", [("power_outlet", "none")]),
       ("power_outlet none", [("type", "kasa"), ("address", "h")])] =
      .ok .noOutlet :=
  ⟨config_default_and_uri_first.1 [] rfl,
   config_default_and_uri_first.2
     [("device_under_test", [("power_outlet", "none")]),
      ("power_outlet none", [("type", "kasa"), ("address", "h")])]
     "none" .noOutlet rfl rfl⟩

/-- C4: for a 1-based outlet number `n` (given as the string the
constructor receives), `_ATEN_PE6108G` appends `n` plus an offset to the
vendor prefix `1.3.6.1.4.1.21317.1.3.2.2.2.2`, the offset being `+1` for
`n ≤ 8` and `+2` for `n > 8`. -/
theorem aten_oid_offset (address outlet : String) (n : Int)
    (_hn : 1 ≤ n) (hparse : pyInt outlet = some n)
    (haddr : ':' ∉ address.data) :
    atenNew address outlet = .ok (.aten
      { address := address, port := 161,
        oid := "1.3.6.1.4.1.21317.1.3.2.2.2.2." ++
               toString (n + (if n ≤ 8 then 1 else 2)) ++ ".0",
        community := "administrator" }) := by
  unfold atenNew
  rw [hparse]
  simp only [snmpIntegerInit, if_neg haddr]
  rfl

theorem aten_oid_offset_witness :
    (1 : Int) ≤ 8 ∧ pyInt "8" = some 8 ∧ (1 : Int) ≤ 9 ∧ pyInt "9" = some 9 ∧
    ':' ∉ "mypdu".data ∧
    atenNew "mypdu" "8" = .ok (.aten
      { address := "mypdu", port := 161,
        oid := "1.3.6.1.4.1.21317.1.3.2.2.2.2.9.0",
        community := "administrator" }) ∧
    atenNew "mypdu" "9" = .ok (.aten
      { address := "mypdu", port := 161,
        oid := "1.3.6.1.4.1.21317.1.3.2.2.2.2.11.0",
        community := "administrator" }) :=
  ⟨by decide, by decide, by decide, by decide, by decide,
   aten_oid_offset "mypdu" "8" 8 (by decide) (by decide) (by decide),
   aten_oid_offset "mypdu" "9" 9 (by decide) (by decide) (by decide)⟩

/-- If the confirmation poll returns `some k`, the `k`-th GET (1-based,
counting from start index `i`) is the first one to report `newState`. -/
theorem atenPollFrom_some_spec (newState : Int) (g : Nat → Int) :
    ∀ fuel i k, atenPollFrom newState g i fuel = some k →
      i < k ∧ k ≤ i + fuel ∧ g (k - 1) = newState ∧
      ∀ j, i ≤ j → j < k - 1 → g j ≠ newState := by
  intro fuel
  induction fuel with
  | zero => intro i k h; exact absurd h (by simp [atenPollFrom])
  | succ fuel ih =>
    intro i k h
    unfold atenPollFrom at h
    by_cases hg : g i = newState
    · rw [if_pos hg] at h
      cases h
      refine ⟨Nat.lt_succ_self i, by omega, by simpa using hg, ?_⟩
      intro j hj1 hj2
      omega
    · rw [if_neg hg] at h
      obtain ⟨h1, h2, h3, h4⟩ := ih (i + 1) k h
      refine ⟨by omega, by omega, h3, ?_⟩
      intro j hj1 hj2
      rcases Nat.eq_or_lt_of_le hj1 with rfl | hlt
      · exact hg
      · exact h4 j hlt hj2

/-- If every GET in the polling window misses `newState`, the poll times
out. -/
theorem atenPollFrom_none_spec (newState : Int) (g : Nat → Int) :
    ∀ fuel i, (∀ j, i ≤ j → j < i + fuel → g j ≠ newState) →
      atenPollFrom newState g i fuel = none := by
  intro fuel
  induction fuel with
  | zero => intro i _; rfl
  | succ fuel ih =>
    intro i h
    unfold atenPollFrom
    rw [if_neg (h i (Nat.le_refl i) (by omega))]
    exact ih (i + 1) (fun j hj1 hj2 => h j (by omega) (by omega))

/-- C3: `_ATEN_PE6108G.set` sends `2` for on / `1` for off; with an agent
whose SET response echoes the written value, it performs at most 12
one-second-spaced GETs, returns at the first GET equal to the value just
set, and otherwise raises the timeout error naming the direction. -/
theorem aten_set_poll (power : Bool) (agent : SnmpAgent)
    (hecho : agent.setEcho (if power then 2 else 1) =
             (if power then 2 else 1)) :
    (atenSet power agent).sent = (if power then (2 : Int) else 1)
  ∧ (∀ k, (atenSet power agent).result = .ok k →
      1 ≤ k ∧ k ≤ 12 ∧
      agent.gets (k - 1) = (if power then (2 : Int) else 1) ∧
      ∀ j, j < k - 1 → agent.gets j ≠ (if power then (2 : Int) else 1))
  ∧ ((∀ j, j < 12 → agent.gets j ≠ (if power then (2 : Int) else 1)) →
      (atenSet power agent).result =
        .error ("Timeout waiting for outlet to power " ++
                (if power then "ON" else "OFF"))) := by
  simp only [atenSet]
  rw [hecho]
  cases hp : atenPollFrom (if power then 2 else 1) agent.gets 0 12 with
  | some k0 =>
    refine ⟨rfl, ?_, ?_⟩
    · intro k hk
      obtain ⟨h1, h2, h3, h4⟩ :=
        atenPollFrom_some_spec (if power then 2 else 1) agent.gets 12 0 k0 hp
      cases hk
      exact ⟨h1, by omega, h3, fun j hj => h4 j (Nat.zero_le j) hj⟩
    · intro hmiss
      have := atenPollFrom_none_spec (if power then 2 else 1) agent.gets 12 0
        (fun j _ hj2 => hmiss j (by omega))
      rw [this] at hp
      cases hp
  | none =>
    refine ⟨rfl, ?_, fun _ => rfl⟩
    intro k hk
    cases hk

theorem aten_set_poll_witness :
    (atenSet true agentOn).sent = 2
  ∧ (atenSet true agentOn).result = .ok 1
  ∧ (1 ≤ 1 ∧ 1 ≤ 12 ∧ agentOn.gets 0 = 2) := by
  have h := aten_set_poll true agentOn rfl
  have h2 := h.2.1 1 rfl
  exact ⟨h.1, rfl, h2.1, h2.2.1, h2.2.2.1⟩

/-- C8: `_Aviosys8800Pro.get` writes `readio`, discards the first line
read and decides on the second (`IO:5`+CRLF → on, `IO:0`+CRLF → off,
anything else → protocol error quoting the stripped response); and over
the scripted fake serial device, `set(b)` followed by `get()` reports `b`
for both booleans. -/
theorem aviosys_line_protocol :
    (∀ (σ : Type) (dev : SerialIface σ) (s : σ) (e : List Char) (s2 : σ)
       (resp : List Char) (s3 : σ),
       dev.readline (dev.write s "readio\n".data) = some (e, s2) →
       dev.readline s2 = some (resp, s3) →
       ((aviosysGet dev s = .ok (true, s3) ↔ resp = "IO:5\x0d\n".data)
        ∧ (aviosysGet dev s = .ok (false, s3) ↔ resp = "IO:0\x0d\n".data)
        ∧ (resp ≠ "IO:5\x0d\n".data → resp ≠ "IO:0\x0d\n".data →
            aviosysGet dev s = .error (.runtimeError
              ("Unexpected response from Aviosys 8800 Pro: \"" ++
               String.mk (pyStrip resp) ++ "\"")))))
  ∧ (∀ b : Bool, ∃ s1 s2,
       aviosysSet fakeIface fakeInit b = .ok s1 ∧
       aviosysGet fakeIface s1 = .ok (b, s2)) := by
  constructor
  · intro σ dev s e s2 resp s3 h1 h2
    simp only [aviosysGet, h1, h2]
    refine ⟨?_, ?_, ?_⟩
    · by_cases h5 : resp = "IO:5\x0d\n".data
      · simp [h5]
      · by_cases h0 : resp = "IO:0\x0d\n".data <;> simp [h5, h0]
    · by_cases h5 : resp = "IO:5\x0d\n".data
      · simp [h5]
      · by_cases h0 : resp = "IO:0\x0d\n".data <;> simp [h5, h0]
    · intro h5 h0
      rw [if_neg h5, if_neg h0]
  · intro b
    cases b
    · exact ⟨{ is_on := false, outbuf := "z>".data, inbuf := [] },
        { is_on := false, outbuf := "z>".data, inbuf := [] }, rfl, rfl⟩
    · exact ⟨{ is_on := true, outbuf := "z>".data, inbuf := [] },
        { is_on := true, outbuf := "z>".data, inbuf := [] }, rfl, rfl⟩

theorem aviosys_line_protocol_witness :
    ((aviosysGet fakeIface fakeInit = .ok (true, fakePost) ↔
        "IO:0\x0d\n".data = "IO:5\x0d\n".data)
     ∧ (aviosysGet fakeIface fakeInit = .ok (false, fakePost) ↔
        "IO:0\x0d\n".data = "IO:0\x0d\n".data)
     ∧ ("IO:0\x0d\n".data ≠ "IO:5\x0d\n".data →
        "IO:0\x0d\n".data ≠ "IO:0\x0d\n".data →
        aviosysGet fakeIface fakeInit = .error (.runtimeError
          ("Unexpected response from Aviosys 8800 Pro: \"" ++
           String.mk (pyStrip "IO:0\x0d\n".data) ++ "\"")))) :=
  aviosys_line_protocol.1 FakeSerial fakeIface fakeInit
    "readio\x0d\n".data fakeMid "IO:0\x0d\n".data fakePost
    (by decide) (by decide)

/-- An option whose `isSome` is `false` is `none`. -/
theorem isSome_false_eq_none {α : Type} {x : Option α}
    (h : x.isSome = false) : x = none := by
  cases x <;> simp_all

/-- The ATEN factory can fail (`ValueError`) but never with
`ConfigurationError`. -/
theorem atenNew_not_configerror (a o msg : String) :
    atenNew a o ≠ .error (.configurationError msg) := by
  intro h
  unfold atenNew snmpIntegerInit at h
  cases hp : pyInt o with
  | none => simp only [hp] at h; simp at h
  | some n =>
    simp only [hp] at h
    split at h <;> simp [Except.map] at h

/-- The Rittal factory can fail (`ValueError`) but never with
`ConfigurationError`. -/
theorem rittalNew_not_configerror (a o c msg : String) :
    rittalNew a o c ≠ .error (.configurationError msg) := by
  intro h
  unfold rittalNew snmpIntegerInit at h
  cases hp : pyInt o with
  | none => simp only [hp] at h; simp at h
  | some n =>
    simp only [hp] at h
    split at h
    · simp at h
    · split at h <;> simp [Except.map] at h

/-- C2 (amended): `uri_to_power_outlet` raises `ConfigurationError`
naming the URI exactly when none of the seven patterns prefix-matches;
when a pattern matches first, its factory is applied to the captured
fields (the factory returns the corresponding variant when the fields
are valid; a factory failure such as a non-integer outlet raises
`ValueError`, not `ConfigurationError`). -/
theorem uri_dispatch_amended (uri : String) :
    (uriMatchesAny uri = false →
      uriToPowerOutlet uri = .error (.configurationError
        ("Invalid power outlet URI: \"" ++ uri ++ "\"")))
  ∧ (∀ msg, uriToPowerOutlet uri = .error (.configurationError msg) →
      uriMatchesAny uri = false ∧
      msg = "Invalid power outlet URI: \"" ++ uri ++ "\"")
  ∧ (∀ r, matchCI "none".data uri.data = some r →
      uriToPowerOutlet uri = .ok .noOutlet)
  ∧ (∀ fn, matchCI "none".data uri.data = none →
      matchFile uri.data = some fn →
      uriToPowerOutlet uri = .ok (.fileOutlet (String.mk fn)))
  ∧ (∀ ao, matchCI "none".data uri.data = none →
      matchFile uri.data = none → matchAten uri.data = some ao →
      uriToPowerOutlet uri = atenNew (String.mk ao.1) (String.mk ao.2))
  ∧ (∀ aoc, matchCI "none".data uri.data = none →
      matchFile uri.data = none → matchAten uri.data = none →
      matchRittal uri.data = some aoc →
      uriToPowerOutlet uri =
        rittalNew (String.mk aoc.1) (String.mk aoc.2.1) (String.mk aoc.2.2))
  ∧ (∀ mho, matchCI "none".data uri.data = none →
      matchFile uri.data = none → matchAten uri.data = none →
      matchRittal uri.data = none → matchShell uri.data = some mho →
      uriToPowerOutlet uri = .ok (.shellOutlet (String.mk mho.1)
        (String.mk mho.2.1) (String.mk mho.2.2)))
  ∧ (∀ fnq, matchCI "none".data uri.data = none →
      matchFile uri.data = none → matchAten uri.data = none →
      matchRittal uri.data = none → matchShell uri.data = none →
      matchAviosys uri.data = some fnq →
      uriToPowerOutlet uri = .ok (aviosysNew (fnq.map String.mk)))
  ∧ (∀ hn, matchCI "none".data uri.data = none →
      matchFile uri.data = none → matchAten uri.data = none →
      matchRittal uri.data = none → matchShell uri.data = none →
      matchAviosys uri.data = none → matchKasa uri.data = some hn →
      uriToPowerOutlet uri = .ok (.kasa (String.mk hn))) := by
  refine ⟨?_, ?_, ?_, ?_, ?_, ?_, ?_, ?_, ?_⟩
  · intro h
    simp only [uriMatchesAny, Bool.or_eq_false_iff] at h
    obtain ⟨⟨⟨⟨⟨⟨h1, h2⟩, h3⟩, h4⟩, h5⟩, h6⟩, h7⟩ := h
    simp only [uriToPowerOutlet, isSome_false_eq_none h1,
      isSome_false_eq_none h2, isSome_false_eq_none h3,
      isSome_false_eq_none h4, isSome_false_eq_none h5,
      isSome_false_eq_none h6, isSome_false_eq_none h7]
  · intro msg h
    cases h1 : matchCI "none".data uri.data with
    | some r => simp only [uriToPowerOutlet, h1] at h; simp at h
    | none =>
    cases h2 : matchFile uri.data with
    | some fn => simp only [uriToPowerOutlet, h1, h2] at h; simp at h
    | none =>
    cases h3 : matchAten uri.data with
    | some ao =>
      simp only [uriToPowerOutlet, h1, h2, h3] at h
      exact absurd h (atenNew_not_configerror _ _ msg)
    | none =>
    cases h4 : matchRittal uri.data with
    | some aoc =>
      simp only [uriToPowerOutlet, h1, h2, h3, h4] at h
      exact absurd h (rittalNew_not_configerror _ _ _ msg)
    | none =>
    cases h5 : matchShell uri.data with
    | some mho => simp only [uriToPowerOutlet, h1, h2, h3, h4, h5] at h; simp at h
    | none =>
    cases h6 : matchAviosys uri.data with
    | some fnq =>
      simp only [uriToPowerOutlet, h1, h2, h3, h4, h5, h6] at h; simp at h
    | none =>
    cases h7 : matchKasa uri.data with
    | some hn =>
      simp only [uriToPowerOutlet, h1, h2, h3, h4, h5, h6, h7] at h; simp at h
    | none =>
      simp only [uriToPowerOutlet, h1, h2, h3, h4, h5, h6, h7] at h
      refine ⟨by simp [uriMatchesAny, h1, h2, h3, h4, h5, h6, h7], ?_⟩
      cases h
      rfl
  · intro r h1
    simp only [uriToPowerOutlet, h1]
  · intro fn h1 h2
    simp only [uriToPowerOutlet, h1, h2]
  · intro ao h1 h2 h3
    simp only [uriToPowerOutlet, h1, h2, h3]
  · intro aoc h1 h2 h3 h4
    simp only [uriToPowerOutlet, h1, h2, h3, h4]
  · intro mho h1 h2 h3 h4 h5
    simp only [uriToPowerOutlet, h1, h2, h3, h4, h5]
  · intro fnq h1 h2 h3 h4 h5 h6
    simp only [uriToPowerOutlet, h1, h2, h3, h4, h5, h6]
  · intro hn h1 h2 h3 h4 h5 h6 h7
    simp only [uriToPowerOutlet, h1, h2, h3, h4, h5, h6, h7]

/-- C2 counterexample to the claim as stated: `aten:host:x` matches the
`aten` pattern, yet the call returns no instance — the factory's
`int("x")` raises `ValueError` (which is also not the claimed
`ConfigurationError`). -/
theorem uri_dispatch_cex :
    matchAten "aten:host:x".data = some ("host".data, "x".data)
  ∧ uriToPowerOutlet "aten:host:x" =
      .error (.valueError
        ("invalid literal for int() with base 10: \x27x\x27")) :=
  ⟨by decide, by rfl⟩

theorem uri_dispatch_amended_witness :
    uriToPowerOutlet "bogus" =
      .error (.configurationError "Invalid power outlet URI: \"bogus\"")
  ∧ uriToPowerOutlet "aten:h:2" = atenNew "h" "2" :=
  ⟨(uri_dispatch_amended "bogus").1 (by decide),
   (uri_dispatch_amended "aten:h:2").2.2.2.2.1 ("h".data, "2".data)
     (by decide) (by decide) (by decide)⟩
